import Mathlib

/-!
# Verification of the eventstore-rs connection driver

A shallow embedding of `src/internal/driver.rs` and `src/internal/command.rs`
(the client-side connection driver of an event-store service), together with
proofs about the driver state machine, the health tracker, the reconnect
policy and the command opcode catalogue.

Conventions of the embedding:
* `Instant` / `Duration` values are modelled as `Nat` milliseconds; every
  operation that calls `Instant::now()` in Rust takes an explicit `now : Nat`
  argument, and `t.elapsed() >= d` becomes `d ≤ now - t` (truncated `Nat`
  subtraction, matching the non-negativity of `Instant::elapsed`).
* `Uuid` values (correlations, connection identities) are modelled as `Nat`;
  each freshly generated uuid is an explicit oracle argument.
* `u32` counters are kept modulo `2^32`.
* An operation that enqueues packages on connections returns, next to the
  updated state, the list of `(connection id, package)` pairs it enqueued.
  Messages the driver posts into its own queue (`Establish`) are not packages
  and are not part of that list.
-/

/-- The `u32` modulus, for the `pkg_num` and `tries` counters. -/
def u32Mod : Nat := 4294967296

/-- Command opcodes, from `src/internal/command.rs` (`enum Cmd`).  Unknown
opcodes carry their byte verbatim. -/
inductive Cmd where
  | heartbeatRequest
  | heartbeatResponse
  | identifyClient
  | clientIdentified
  | authenticate
  | authenticated
  | notAuthenticated
  | writeEvents
  | writeEventsCompleted
  | readEvent
  | readEventCompleted
  | transactionStart
  | transactionStartCompleted
  | transactionWrite
  | transactionWriteCompleted
  | transactionCommit
  | transactionCommitCompleted
  | unknown (cmd : Nat)
  deriving DecidableEq, Repr

/-- `Cmd::to_u8`, from `src/internal/command.rs`. -/
def Cmd.to_u8 : Cmd → Nat
  | .heartbeatRequest => 0x01
  | .heartbeatResponse => 0x02
  | .identifyClient => 0xF5
  | .clientIdentified => 0xF6
  | .authenticate => 0xF2
  | .authenticated => 0xF3
  | .notAuthenticated => 0xF4
  | .writeEvents => 0x82
  | .writeEventsCompleted => 0x83
  | .readEvent => 0xB0
  | .readEventCompleted => 0xB1
  | .transactionStart => 0x84
  | .transactionStartCompleted => 0x85
  | .transactionWrite => 0x86
  | .transactionWriteCompleted => 0x87
  | .transactionCommit => 0x88
  | .transactionCommitCompleted => 0x89
  | .unknown cmd => cmd

/-- `Cmd::from_u8`, from `src/internal/command.rs`. -/
def Cmd.from_u8 (cmd : Nat) : Cmd :=
  if cmd = 0x01 then .heartbeatRequest
  else if cmd = 0x02 then .heartbeatResponse
  else if cmd = 0xF5 then .identifyClient
  else if cmd = 0xF6 then .clientIdentified
  else if cmd = 0xF2 then .authenticate
  else if cmd = 0xF3 then .authenticated
  else if cmd = 0xF4 then .notAuthenticated
  else if cmd = 0x82 then .writeEvents
  else if cmd = 0x83 then .writeEventsCompleted
  else if cmd = 0xB0 then .readEvent
  else if cmd = 0xB1 then .readEventCompleted
  else if cmd = 0x84 then .transactionStart
  else if cmd = 0x85 then .transactionStartCompleted
  else if cmd = 0x86 then .transactionWrite
  else if cmd = 0x87 then .transactionWriteCompleted
  else if cmd = 0x88 then .transactionCommit
  else if cmd = 0x89 then .transactionCommitCompleted
  else .unknown cmd

/-- The `PartialEq` implementation of `Cmd` compares the `to_u8` images
(`impl PartialEq for Cmd` in `src/internal/command.rs`), so two commands are
Rust-equal iff their opcode bytes agree. -/
def Cmd.rustEq (a b : Cmd) : Prop := a.to_u8 = b.to_u8

instance (a b : Cmd) : Decidable (Cmd.rustEq a b) := Nat.decEq a.to_u8 b.to_u8

/-- Modelled from the spec: credentials (a user/password pair, §6
"default_user (credentials?)"); `types.rs` is not under `src/`. -/
structure Credentials where
  login : String
  password : String
  deriving DecidableEq, Repr

/-- Modelled from the spec: an endpoint is a network address returned by
discovery (§3 "Endpoint"); `discovery.rs` is not under `src/`, so the address
is abstracted to a `Nat`. -/
structure Endpoint where
  addr : Nat
  deriving DecidableEq, Repr

/-- Modelled from the spec: a connection handle carries a 128-bit identity
(§3 "Connection handle"); `connection.rs` is not under `src/`.  The send
endpoint is modelled by returning enqueued packages in operation results. -/
structure Connection where
  id : Nat
  deriving DecidableEq, Repr

/-- Modelled from the spec: a package payload (§3 "Package"); `package.rs` is
not under `src/`.  The payloads the driver itself builds are either empty or
carry the connection name of an `IdentifyClient` package. -/
inductive Payload where
  | empty
  | identifyData (name : Option String)
  | bytes (bs : List Nat)
  deriving DecidableEq, Repr

/-- Modelled from the spec: a package carries a command opcode, a correlation
identifier, optional credentials and a payload (§3 "Package"); `package.rs`
is not under `src/`. -/
structure Pkg where
  cmd : Cmd
  correlation : Nat
  creds : Option Credentials
  payload : Payload
  deriving DecidableEq, Repr

/-- Modelled from the spec: `Pkg::heartbeat_request()` builds a
`HeartbeatRequest` package with a fresh correlation and empty payload
(§4.2, §6). -/
def Pkg.heartbeat_request (u : Nat) : Pkg :=
  { cmd := .heartbeatRequest, correlation := u, creds := none, payload := .empty }

/-- Modelled from the spec: `Pkg::authenticate(creds)` builds an
`Authenticate` package carrying the credentials, with a fresh
correlation (§4.1 `on_established`, §6). -/
def Pkg.authenticate (creds : Credentials) (u : Nat) : Pkg :=
  { cmd := .authenticate, correlation := u, creds := some creds, payload := .empty }

/-- Modelled from the spec: `Pkg::identify_client(name)` builds an
`IdentifyClient` package whose payload carries the connection name, with a
fresh correlation (§6 "connection_name ... sent in IdentifyClient
payload"). -/
def Pkg.identify_client (name : Option String) (u : Nat) : Pkg :=
  { cmd := .identifyClient, correlation := u, creds := none, payload := .identifyData name }

/-- Modelled from the spec: `Pkg::copy_headers_only()` keeps the header
fields (command, correlation, credentials) and empties the payload (§4.1
"same correlation and header fields, empty payload"). -/
def Pkg.copy_headers_only (pkg : Pkg) : Pkg :=
  { cmd := pkg.cmd, correlation := pkg.correlation, creds := pkg.creds, payload := .empty }

/-- An enqueued outbound package: the identity of the connection it was
enqueued on, and the package. -/
abbrev Out := Nat × Pkg

/-- Modelled from the spec: the retry setting, a count or unbounded (§6
"connection_retry (count or unbounded)"); `types.rs` is not under `src/`.
`to_u32` maps the unbounded case to `u32::MAX`. -/
inductive Retry where
  | only (n : Nat)
  | undefinitely
  deriving DecidableEq, Repr

/-- Modelled from the spec: `Retry::to_u32` (§6). -/
def Retry.to_u32 : Retry → Nat
  | .only n => n % u32Mod
  | .undefinitely => u32Mod - 1

/-- Modelled from the spec: the recognized configuration options (§6
"Configuration"); `types.rs` is not under `src/`.  Durations are in
milliseconds; `operation_retry` is the per-exchange retry budget used by the
registry (§4.3 `check_and_retry`, scenario 6). -/
structure Settings where
  connection_name : Option String
  default_user : Option Credentials
  heartbeat_delay : Nat
  heartbeat_timeout : Nat
  operation_timeout : Nat
  operation_check_period : Nat
  connection_retry : Retry
  operation_retry : Nat
  deriving DecidableEq, Repr

/-- `enum HeartbeatStatus`, from `src/internal/driver.rs`. -/
inductive HeartbeatStatus where
  | init
  | delay (num : Nat) (t : Nat)
  | timeout (num : Nat) (t : Nat)
  deriving DecidableEq, Repr

/-- `enum Heartbeat`, from `src/internal/driver.rs`. -/
inductive Heartbeat where
  | valid
  | failure
  deriving DecidableEq, Repr

/-- `struct HealthTracker`, from `src/internal/driver.rs`. -/
structure HealthTracker where
  pkg_num : Nat
  state : HeartbeatStatus
  heartbeat_delay : Nat
  heartbeat_timeout : Nat
  deriving DecidableEq, Repr

/-- `HealthTracker::new`, from `src/internal/driver.rs`. -/
def HealthTracker.new (setts : Settings) : HealthTracker :=
  { pkg_num := 0
    state := .init
    heartbeat_delay := setts.heartbeat_delay
    heartbeat_timeout := setts.heartbeat_timeout }

/-- `HealthTracker::incr_pkg_num`, from `src/internal/driver.rs`
(`pkg_num` is a `u32`, so the increment wraps). -/
def HealthTracker.incr_pkg_num (t : HealthTracker) : HealthTracker :=
  { t with pkg_num := (t.pkg_num + 1) % u32Mod }

/-- `HealthTracker::reset`, from `src/internal/driver.rs`. -/
def HealthTracker.reset (t : HealthTracker) : HealthTracker :=
  { t with state := .init }

/-- `HealthTracker::manage_heartbeat`, from `src/internal/driver.rs`.
Returns the updated tracker, the heartbeat verdict, and the packages it
enqueued on the given connection. -/
def HealthTracker.manage_heartbeat (now u : Nat) (conn : Connection)
    (t : HealthTracker) : HealthTracker × Heartbeat × List Out :=
  match t.state with
  | .init =>
      ({ t with state := .delay t.pkg_num now }, .valid, [])
  | .delay num start =>
      if t.pkg_num ≠ num then
        ({ t with state := .delay t.pkg_num now }, .valid, [])
      else
        if t.heartbeat_delay ≤ now - start then
          ({ t with state := .timeout t.pkg_num now }, .valid,
            [(conn.id, Pkg.heartbeat_request u)])
        else
          (t, .valid, [])
  | .timeout num start =>
      if t.pkg_num ≠ num then
        ({ t with state := .delay t.pkg_num now }, .valid, [])
      else
        if t.heartbeat_timeout ≤ now - start then
          (t, .failure, [])
        else
          (t, .valid, [])

/-- `enum ConnectionState`, from `src/internal/driver.rs`. -/
inductive ConnectionState where
  | init
  | connecting
  | connected
  | closed
  deriving DecidableEq, Repr

/-- `ConnectionState::is_connected`, from `src/internal/driver.rs`. -/
def ConnectionState.is_connected (s : ConnectionState) : Bool :=
  s = ConnectionState.connected

/-- `struct InitReq`, from `src/internal/driver.rs`: the recorded handshake
request (correlation and start time). -/
structure InitReq where
  correlation : Nat
  started : Nat
  deriving DecidableEq, Repr

/-- `enum Phase`, from `src/internal/driver.rs`. -/
inductive Phase where
  | reconnecting
  | endpointDiscovery
  | establishing
  | authentication
  | identification
  deriving DecidableEq, Repr

/-- `struct Attempt`, from `src/internal/driver.rs` (`tries` is a `u32`). -/
structure Attempt where
  started : Nat
  tries : Nat
  deriving DecidableEq, Repr

/-- `Attempt::new`, from `src/internal/driver.rs`. -/
def Attempt.new (now : Nat) : Attempt :=
  { started := now, tries := 0 }

/-- `enum Report`, from `src/internal/driver.rs`.  (`continue` is a Lean
keyword, hence the trailing underscore.) -/
inductive Report where
  | continue_
  | quit
  deriving DecidableEq, Repr

/-- Modelled from the spec: an exchange is an application request carrying a
generated correlation identifier, an opaque outbound package and an optional
credential override (§3 "Exchange"); `operations.rs` is not under `src/`. -/
structure Exchange where
  correlation : Nat
  pkg : Pkg
  creds : Option Credentials
  deriving DecidableEq, Repr

/-- Modelled from the spec: a registry entry is an exchange keyed by its
correlation, plus bookkeeping (start time, retry counter, the connection
identity it was last issued on — `none` while parked) (§3 "Registry entry",
§4.3); `registry.rs` is not under `src/`. -/
structure RegEntry where
  exchange : Exchange
  started : Nat
  tries : Nat
  connId : Option Nat
  deriving DecidableEq, Repr

/-- Modelled from the spec: the operation registry owns the mapping from
correlation to entry, with the per-operation timeout and retry budget taken
from the settings (§4.3); `registry.rs` is not under `src/`. -/
structure Registry where
  entries : List RegEntry
  operation_timeout : Nat
  max_retries : Nat
  deriving DecidableEq, Repr

/-- Modelled from the spec: `Registry::new(&setts)` (§4.3). -/
def Registry.new (setts : Settings) : Registry :=
  { entries := [], operation_timeout := setts.operation_timeout,
    max_retries := setts.operation_retry }

/-- Modelled from the spec: `register(exchange, connection?)` records `now`
as start, sets tries to zero, and — when a connection is present — enqueues
the exchange's outbound package on it; otherwise the entry is parked (§4.3). -/
def Registry.register (x : Exchange) (conn : Option Connection) (now : Nat)
    (r : Registry) : Registry × List Out :=
  let entry : RegEntry :=
    { exchange := x, started := now, tries := 0,
      connId := conn.map (fun c => c.id) }
  ({ r with entries := r.entries ++ [entry] },
    match conn with
    | some c => [(c.id, x.pkg)]
    | none => [])

/-- Modelled from the spec: `handle(pkg, connection)` looks up the entry by
`pkg.correlation`; if absent the package is dropped, otherwise the package is
delivered to the exchange's continuation and the entry removed (§4.3; the
single-response terminal case is modelled — delivery itself is not an
outbound package). -/
def Registry.handle (pkg : Pkg) (_conn : Connection) (r : Registry) : Registry :=
  { r with entries := r.entries.filter (fun e => e.exchange.correlation ≠ pkg.correlation) }

/-- Modelled from the spec: `check_and_retry(connection)` re-issues every
entry older than `operation_timeout` while its tries are below the retry
budget (incrementing tries, resetting its start), and removes and fails the
rest of the stale entries (§4.3). -/
def Registry.check_and_retry (now : Nat) (conn : Connection)
    (r : Registry) : Registry × List Out :=
  let step := fun (acc : List RegEntry × List Out) (e : RegEntry) =>
    if r.operation_timeout ≤ now - e.started then
      if e.tries < r.max_retries then
        (acc.1 ++ [{ e with tries := e.tries + 1, started := now, connId := some conn.id }],
          acc.2 ++ [(conn.id, e.exchange.pkg)])
      else
        (acc.1, acc.2)
    else
      (acc.1 ++ [e], acc.2)
  let res := r.entries.foldl step ([], [])
  ({ r with entries := res.1 }, res.2)

/-- `struct Driver`, from `src/internal/driver.rs`.  The `handle`, `sender`
and `discovery` collaborators are not state: spawning the tick stream and
posting `Establish` messages are external effects, and discovery results
enter as oracle arguments of the operations. -/
structure Driver where
  registry : Registry
  candidate : Option Connection
  tracker : HealthTracker
  attempt_opt : Option Attempt
  state : ConnectionState
  phase : Phase
  last_endpoint : Option Endpoint
  connection_name : Option String
  default_user : Option Credentials
  operation_timeout : Nat
  init_req_opt : Option InitReq
  reconnect_delay : Nat
  max_reconnect : Nat
  operation_check_period : Nat
  last_operation_check : Nat
  deriving DecidableEq, Repr

/-- `Driver::new`, from `src/internal/driver.rs`.  `reconnect_delay` is the
hard-coded `Duration::from_secs(3)`, i.e. 3000 ms. -/
def Driver.new (setts : Settings) (now : Nat) : Driver :=
  { registry := Registry.new setts
    candidate := none
    tracker := HealthTracker.new setts
    attempt_opt := none
    state := .init
    phase := .reconnecting
    last_endpoint := none
    connection_name := setts.connection_name
    default_user := setts.default_user
    operation_timeout := setts.operation_timeout
    init_req_opt := none
    reconnect_delay := 3000
    max_reconnect := setts.connection_retry.to_u32
    operation_check_period := setts.operation_check_period
    last_operation_check := now }

/-- `Driver::discover`, from `src/internal/driver.rs`: guarded by
`(Connecting, Reconnecting)`; advances to `EndpointDiscovery`, resets the
tracker, and posts an `Establish` message to itself (a queue message, not an
outbound package). -/
def Driver.discover (d : Driver) : Driver :=
  if d.state = .connecting ∧ d.phase = .reconnecting then
    { d with phase := .endpointDiscovery, tracker := d.tracker.reset }
  else d

/-- `Driver::start`, from `src/internal/driver.rs`: installs a fresh attempt,
moves to `(Connecting, Reconnecting)`, spawns the tick stream (an external
effect) and calls `discover`. -/
def Driver.start (now : Nat) (d : Driver) : Driver :=
  Driver.discover
    { d with attempt_opt := some (Attempt.new now), state := .connecting,
             phase := .reconnecting }

/-- `Driver::on_establish`, from `src/internal/driver.rs`: guarded by
`(Connecting, EndpointDiscovery)`; stores a freshly created connection (whose
generated identity is the oracle `connId`) as candidate, records the
endpoint, advances to `Establishing`. -/
def Driver.on_establish (ep : Endpoint) (connId : Nat) (d : Driver) : Driver :=
  if d.state = .connecting ∧ d.phase = .endpointDiscovery then
    { d with phase := .establishing, candidate := some { id := connId },
             last_endpoint := some ep }
  else d

/-- `Driver::authenticate`, from `src/internal/driver.rs`: guarded by
`(Connecting, Establishing)`; records the handshake request, advances to
`Authentication` and enqueues the `Authenticate` package on the candidate
when one is present. -/
def Driver.authenticate (creds : Credentials) (now u : Nat)
    (d : Driver) : Driver × List Out :=
  if d.state = .connecting ∧ d.phase = .establishing then
    let pkg := Pkg.authenticate creds u
    let d1 := { d with init_req_opt := some { correlation := pkg.correlation, started := now },
                       phase := .authentication }
    match d1.candidate with
    | some conn => (d1, [(conn.id, pkg)])
    | none => (d1, [])
  else (d, [])

/-- `Driver::identify_client`, from `src/internal/driver.rs`: guarded by
`Connecting` with phase `Authentication` or `Establishing`; records the
handshake request, advances to `Identification` and enqueues the
`IdentifyClient` package on the candidate when one is present. -/
def Driver.identify_client (now u : Nat) (d : Driver) : Driver × List Out :=
  if d.state = .connecting ∧ (d.phase = .authentication ∨ d.phase = .establishing) then
    let pkg := Pkg.identify_client d.connection_name u
    let d1 := { d with init_req_opt := some { correlation := pkg.correlation, started := now },
                       phase := .identification }
    match d1.candidate with
    | some conn => (d1, [(conn.id, pkg)])
    | none => (d1, [])
  else (d, [])

/-- `Driver::on_established`, from `src/internal/driver.rs`: guarded by
`(Connecting, Establishing)` and the acknowledged identity matching the
candidate; resets the tracker and starts authentication or identification
depending on `default_user`. -/
def Driver.on_established (id : Nat) (now u : Nat) (d : Driver) : Driver × List Out :=
  if d.state = .connecting ∧ d.phase = .establishing then
    let same_connection : Bool :=
      match d.candidate with
      | some conn => conn.id = id
      | none => false
    if same_connection then
      let d1 := { d with tracker := d.tracker.reset }
      match d1.default_user with
      | some creds => d1.authenticate creds now u
      | none => d1.identify_client now u
    else (d, [])
  else (d, [])

/-- `Driver::is_same_connection`, from `src/internal/driver.rs`. -/
def Driver.is_same_connection (d : Driver) (connId : Nat) : Bool :=
  match d.candidate with
  | some conn => conn.id = connId
  | none => false

/-- `Driver::tcp_connection_close`, from `src/internal/driver.rs`: from
`Connected`, installs a fresh attempt and re-enters
`(Connecting, Reconnecting)`; from `Connecting`, resets the phase to
`Reconnecting`; otherwise does nothing. -/
def Driver.tcp_connection_close (now : Nat) (d : Driver) : Driver :=
  match d.state with
  | .connected =>
      { d with attempt_opt := some (Attempt.new now), state := .connecting,
               phase := .reconnecting }
  | .connecting =>
      { d with state := .connecting, phase := .reconnecting }
  | _ => d

/-- `Driver::on_connection_closed`, from `src/internal/driver.rs`: ignored
unless the identity matches the candidate; never enqueues a package. -/
def Driver.on_connection_closed (connId : Nat) (now : Nat) (d : Driver) : Driver × List Out :=
  if d.is_same_connection connId then (d.tcp_connection_close now, [])
  else (d, [])

/-- `Driver::on_package_arrived`, from `src/internal/driver.rs`.  The first
two guards compare commands with Rust `==` (opcode-byte equality); the
`Connected` dispatch is a structural `match`.  `init_req_opt.take()` clears
the recorded handshake request in both handshake branches before the
correlation is compared.  The oracle `u` is the correlation of the
`IdentifyClient` package generated when authentication completes. -/
def Driver.on_package_arrived (now u : Nat) (pkg : Pkg) (d0 : Driver) : Driver × List Out :=
  let d := { d0 with tracker := d0.tracker.incr_pkg_num }
  if Cmd.rustEq pkg.cmd .clientIdentified ∧ d.state = .connecting ∧ d.phase = .identification then
    match d.init_req_opt with
    | some req =>
        let d1 := { d with init_req_opt := none }
        if req.correlation = pkg.correlation then
          ({ d1 with attempt_opt := none, last_operation_check := now,
                     state := .connected }, [])
        else (d1, [])
    | none => (d, [])
  else if (Cmd.rustEq pkg.cmd .authenticated ∨ Cmd.rustEq pkg.cmd .notAuthenticated)
      ∧ d.state = .connecting ∧ d.phase = .authentication then
    match d.init_req_opt with
    | some req =>
        let d1 := { d with init_req_opt := none }
        if req.correlation = pkg.correlation then
          d1.identify_client now u
        else (d1, [])
    | none => (d, [])
  else
    if d.state = .connected then
      match pkg.cmd with
      | .heartbeatRequest =>
          let resp := { pkg.copy_headers_only with cmd := Cmd.heartbeatResponse }
          match d.candidate with
          | some conn => (d, [(conn.id, resp)])
          | none => (d, [])
      | .heartbeatResponse => (d, [])
      | _ =>
          match d.candidate with
          | some conn => ({ d with registry := d.registry.handle pkg conn }, [])
          | none => (d, [])
    else (d, [])

/-- `Driver::on_new_op`, from `src/internal/driver.rs`: registers the
exchange, issuing it immediately on the candidate when `Connected` and
parking it otherwise. -/
def Driver.on_new_op (now : Nat) (operation : Exchange) (d : Driver) : Driver × List Out :=
  let conn_opt := if d.state.is_connected then d.candidate else none
  let r := d.registry.register operation conn_opt now
  ({ d with registry := r.1 }, r.2)

/-- `Driver::has_init_req_timeout`, from `src/internal/driver.rs`. -/
def Driver.has_init_req_timeout (now : Nat) (d : Driver) : Bool :=
  match d.init_req_opt with
  | some req => d.operation_timeout ≤ now - req.started
  | none => false

/-- `Driver::conn_has_timeout`, from `src/internal/driver.rs`. -/
def Driver.conn_has_timeout (now : Nat) (d : Driver) : Bool :=
  match d.attempt_opt with
  | some att => d.reconnect_delay ≤ now - att.started
  | none => false

/-- `Driver::start_new_attempt`, from `src/internal/driver.rs`: increments
`tries` (a wrapping `u32`), resets `started`, and reports whether the new
count is still within `max_reconnect`. -/
def Driver.start_new_attempt (now : Nat) (d : Driver) : Driver × Bool :=
  match d.attempt_opt with
  | some att =>
      let tries1 := (att.tries + 1) % u32Mod
      ({ d with attempt_opt := some { started := now, tries := tries1 } },
        decide (tries1 ≤ d.max_reconnect))
  | none => (d, false)

/-- `Driver::close_connection`, from `src/internal/driver.rs`: sets the
state to `Closed` (and changes nothing else). -/
def Driver.close_connection (d : Driver) : Driver :=
  { d with state := .closed }

/-- `Driver::manage_heartbeat`, from `src/internal/driver.rs`: runs the
tracker against the candidate; on `Failure` takes the candidate out and runs
`tcp_connection_close` with a heartbeat-timeout error. -/
def Driver.manage_heartbeat (now u : Nat) (d : Driver) : Driver × List Out :=
  match d.candidate with
  | some conn =>
      let r := d.tracker.manage_heartbeat now u conn
      let d1 := { d with tracker := r.1 }
      match r.2.1 with
      | .valid => (d1, r.2.2)
      | .failure =>
          (Driver.tcp_connection_close now { d1 with candidate := none }, r.2.2)
  | none => (d, [])

/-- `Driver::on_tick`, from `src/internal/driver.rs`.  Oracles: `u1` is the
correlation of an `IdentifyClient` package generated on authentication
timeout, `u2` the correlation of a generated heartbeat request. -/
def Driver.on_tick (now u1 u2 : Nat) (d : Driver) : Driver × List Out × Report :=
  if d.state = .init ∨ d.state = .closed then
    (d, [], .continue_)
  else if d.state = .connecting then
    if d.phase = .reconnecting then
      if d.conn_has_timeout now then
        let r := d.start_new_attempt now
        if r.2 then (r.1.discover, [], .continue_)
        else (r.1, [], .quit)
      else (d, [], .continue_)
    else if d.phase = .authentication then
      let r1 := if d.has_init_req_timeout now then d.identify_client now u1 else (d, [])
      let r2 := r1.1.manage_heartbeat now u2
      (r2.1, r1.2 ++ r2.2, .continue_)
    else if d.phase = .identification then
      if d.has_init_req_timeout now then (d, [], .quit)
      else
        let r := d.manage_heartbeat now u2
        (r.1, r.2, .continue_)
    else (d, [], .continue_)
  else
    let r0 :=
      match d.candidate with
      | some conn =>
          if d.operation_check_period ≤ now - d.last_operation_check then
            let rr := d.registry.check_and_retry now conn
            ({ d with registry := rr.1, last_operation_check := now }, rr.2)
          else (d, [])
      | none => (d, [])
    let r1 := r0.1.manage_heartbeat now u2
    (r1.1, r0.2 ++ r1.2, .continue_)

/-- `Driver::on_send_pkg`, from `src/internal/driver.rs`: accepted only when
`Connected`; enqueued on the candidate. -/
def Driver.on_send_pkg (pkg : Pkg) (d : Driver) : Driver × List Out :=
  if d.state = .connected then
    match d.candidate with
    | some conn => (d, [(conn.id, pkg)])
    | none => (d, [])
  else (d, [])

/-! ## The opcode catalogue (claims about `command.rs`) -/

/-- Every byte round-trips through `Cmd::from_u8` and `Cmd::to_u8`: named
opcodes map back to their byte, and unknown opcodes are retained verbatim. -/
theorem to_u8_from_u8 (b : Nat) : (Cmd.from_u8 b).to_u8 = b := by
  unfold Cmd.from_u8
  by_cases h1 : b = 1
  · subst h1; rfl
  rw [if_neg h1]
  by_cases h2 : b = 2
  · subst h2; rfl
  rw [if_neg h2]
  by_cases h3 : b = 245
  · subst h3; rfl
  rw [if_neg h3]
  by_cases h4 : b = 246
  · subst h4; rfl
  rw [if_neg h4]
  by_cases h5 : b = 242
  · subst h5; rfl
  rw [if_neg h5]
  by_cases h6 : b = 243
  · subst h6; rfl
  rw [if_neg h6]
  by_cases h7 : b = 244
  · subst h7; rfl
  rw [if_neg h7]
  by_cases h8 : b = 130
  · subst h8; rfl
  rw [if_neg h8]
  by_cases h9 : b = 131
  · subst h9; rfl
  rw [if_neg h9]
  by_cases h10 : b = 176
  · subst h10; rfl
  rw [if_neg h10]
  by_cases h11 : b = 177
  · subst h11; rfl
  rw [if_neg h11]
  by_cases h12 : b = 132
  · subst h12; rfl
  rw [if_neg h12]
  by_cases h13 : b = 133
  · subst h13; rfl
  rw [if_neg h13]
  by_cases h14 : b = 134
  · subst h14; rfl
  rw [if_neg h14]
  by_cases h15 : b = 135
  · subst h15; rfl
  rw [if_neg h15]
  by_cases h16 : b = 136
  · subst h16; rfl
  rw [if_neg h16]
  by_cases h17 : b = 137
  · subst h17; rfl
  rw [if_neg h17]
  rfl

/-- C9: for every 8-bit opcode value `b`, `Cmd::from_u8(b).to_u8()` equals
`b` (unknown opcodes are retained verbatim and round-trip), and for every
command `c` — the named constructors in particular — `Cmd::from_u8(c.to_u8())`
equals `c` under the `PartialEq` equality of `Cmd` (opcode-byte equality). -/
theorem cmd_opcode_roundtrip :
    (∀ b : Nat, b < 256 → (Cmd.from_u8 b).to_u8 = b)
    ∧ (∀ c : Cmd, Cmd.rustEq (Cmd.from_u8 c.to_u8) c) := by
  constructor
  · intro b _
    exact to_u8_from_u8 b
  · intro c
    exact to_u8_from_u8 c.to_u8

/-- Witness for C9 at the concrete byte `130 = 0x82` (`WriteEvents`) and at
the unknown opcode `7`. -/
theorem cmd_opcode_roundtrip_witness :
    (Cmd.from_u8 130).to_u8 = 130
    ∧ Cmd.rustEq (Cmd.from_u8 (Cmd.unknown 7).to_u8) (Cmd.unknown 7) :=
  ⟨cmd_opcode_roundtrip.1 130 (by decide), cmd_opcode_roundtrip.2 (Cmd.unknown 7)⟩

/-! ## The reconnect delay (claim about `Driver::new`) -/

/-- C10: for every `Settings` value supplied to `Driver::new`, the
constructed driver's `reconnect_delay` is the hard-coded
`Duration::from_secs(3)` — 3000 ms — independent of the settings. -/
theorem reconnect_delay_hard_coded (setts : Settings) (now : Nat) :
    (Driver.new setts now).reconnect_delay = 3000 := rfl

/-! ## The health tracker (claim about `HealthTracker::manage_heartbeat`) -/

/-- The reference heartbeat step, written from §4.2 of the spec: `Init`
becomes `Delay(pkg_num, now)`; in `Delay(num, t)` traffic refreshes the
delay, and otherwise once `heartbeat_delay` has elapsed one
`HeartbeatRequest` is enqueued and the state becomes `Timeout(pkg_num, now)`,
Valid in all cases; in `Timeout(num, t)` traffic refreshes to
`Delay(pkg_num, now)` with Valid, silence past `heartbeat_timeout` is a
Failure, and anything else is Valid. -/
def manage_heartbeat_spec (now u : Nat) (conn : Connection)
    (t : HealthTracker) : HealthTracker × Heartbeat × List Out :=
  match t.state with
  | .init => ({ t with state := .delay t.pkg_num now }, .valid, [])
  | .delay num tstamp =>
      if t.pkg_num ≠ num then
        ({ t with state := .delay t.pkg_num now }, .valid, [])
      else if now - tstamp ≥ t.heartbeat_delay then
        ({ t with state := .timeout t.pkg_num now }, .valid,
          [(conn.id, Pkg.heartbeat_request u)])
      else (t, .valid, [])
  | .timeout num tstamp =>
      if t.pkg_num ≠ num then
        ({ t with state := .delay t.pkg_num now }, .valid, [])
      else if now - tstamp ≥ t.heartbeat_timeout then (t, .failure, [])
      else (t, .valid, [])

/-- C4: for every health-tracker state and every connection,
`HealthTracker::manage_heartbeat` computes exactly the reference step of
§4.2 of the spec. -/
theorem manage_heartbeat_matches_spec (t : HealthTracker) (now u : Nat) (conn : Connection) :
    t.manage_heartbeat now u conn = manage_heartbeat_spec now u conn t := by
  cases h : t.state <;>
    simp [HealthTracker.manage_heartbeat, manage_heartbeat_spec, h]

/-! ## A concrete run of the driver

The trace below follows end-to-end scenario 1 of the spec (§8): `new`,
`start`, `Establish`, `Established`, then `ClientIdentified`.  It provides
concrete states for witnesses and counterexamples. -/

/-- A concrete configuration (no default credentials, retry budget 3). -/
def setts0 : Settings :=
  { connection_name := some "client-a"
    default_user := none
    heartbeat_delay := 750
    heartbeat_timeout := 1500
    operation_timeout := 7000
    operation_check_period := 1000
    connection_retry := .only 3
    operation_retry := 3 }

/-- The freshly constructed driver, at time 0. -/
def drv0 : Driver := Driver.new setts0 0

/-- After `start` (which runs `discover`): `(Connecting, EndpointDiscovery)`. -/
def drv1 : Driver := drv0.start 0

/-- After `Establish`: a candidate connection with identity 10 is stored;
`(Connecting, Establishing)`. -/
def drv2 : Driver := drv1.on_establish { addr := 1 } 10

/-- After `Established(10)`: no default credentials, so `IdentifyClient`
goes out with correlation 99; `(Connecting, Identification)`. -/
def drv3 : Driver := (drv2.on_established 10 0 99).1

/-- A `ClientIdentified` package answering correlation 99. -/
def pkgCI : Pkg :=
  { cmd := .clientIdentified, correlation := 99, creds := none, payload := .empty }

/-- After the matching `ClientIdentified`: `(Connected, —)`. -/
def drv4 : Driver := (drv3.on_package_arrived 5 0 pkgCI).1

/-- A `ClientIdentified` package whose correlation does not match the
recorded handshake correlation 99. -/
def pkgCIbad : Pkg :=
  { cmd := .clientIdentified, correlation := 123, creds := none, payload := .empty }

/-- An exchange registered while `Connecting` (and therefore parked). -/
def exch0 : Exchange :=
  { correlation := 77
    pkg := { cmd := .writeEvents, correlation := 77, creds := none, payload := .bytes [1, 2] }
    creds := none }

/-- `drv3` after parking `exch0` in the registry (`on_new_op` while
`Connecting` registers without a connection). -/
def drv3p : Driver := (drv3.on_new_op 1 exch0).1

/-- After `Established` the driver has recorded handshake correlation 99 in
phase `Identification` — sanity facts used by witnesses. -/
theorem drv3_shape :
    drv3.state = ConnectionState.connecting
    ∧ drv3.phase = Phase.identification
    ∧ drv3.init_req_opt = some { correlation := 99, started := 0 }
    ∧ drv3.candidate = some { id := 10 } := by decide

/-! ## C2: a non-matching correlation destroys the handshake request -/

/-- C2 (code-bug evidence): delivering a `ClientIdentified` package whose
correlation (123) differs from the recorded handshake correlation (99) in
`(Connecting, Identification)` does NOT leave the driver unchanged:
`init_req_opt.take()` has cleared the recorded handshake request even though
the phase and connection state stay `(Connecting, Identification)`.  The
spec calls this combination "silently dropped" / a no-op. -/
theorem mismatched_correlation_clears_request :
    drv3.init_req_opt = some { correlation := 99, started := 0 }
    ∧ (drv3.on_package_arrived 5 0 pkgCIbad).1.init_req_opt = none
    ∧ (drv3.on_package_arrived 5 0 pkgCIbad).1.state = ConnectionState.connecting
    ∧ (drv3.on_package_arrived 5 0 pkgCIbad).1.phase = Phase.identification
    ∧ (drv3.on_package_arrived 5 0 pkgCIbad).2 = [] := by decide

/-! ## C1: the `ClientIdentified` transition -/

/-- C1 (counterexample to the drain conjunct): from
`(Connecting, Identification)` with the parked operation `exch0` in the
registry, the matching `ClientIdentified` package transitions the driver to
`Connected` but enqueues nothing: the parked entry is still parked
(`connId = none`) and no package is re-issued on the connection. -/
theorem identified_does_not_reissue_parked :
    drv3p.registry.entries = [{ exchange := exch0, started := 1, tries := 0, connId := none }]
    ∧ (drv3p.on_package_arrived 5 0 pkgCI).1.state = ConnectionState.connected
    ∧ (drv3p.on_package_arrived 5 0 pkgCI).1.registry.entries
        = [{ exchange := exch0, started := 1, tries := 0, connId := none }]
    ∧ (drv3p.on_package_arrived 5 0 pkgCI).2 = [] := by decide

/-- C1 (amended): from `(Connecting, Identification)` with a recorded
handshake request, a `ClientIdentified` package with the matching
correlation clears the handshake request, clears the attempt, sets
`last_operation_check` to now, and transitions to `(Connected, —)`; the
driver makes no registry call and emits no package (parked operations are
not re-issued at this transition). -/
theorem clientIdentified_match_transition (d : Driver) (now u : Nat) (pkg : Pkg)
    (req : InitReq)
    (hs : d.state = ConnectionState.connecting) (hp : d.phase = Phase.identification)
    (hr : d.init_req_opt = some req)
    (hcmd : Cmd.rustEq pkg.cmd Cmd.clientIdentified)
    (hcorr : req.correlation = pkg.correlation) :
    d.on_package_arrived now u pkg =
      ({ d with tracker := d.tracker.incr_pkg_num, init_req_opt := none,
                attempt_opt := none, last_operation_check := now,
                state := ConnectionState.connected }, []) := by
  unfold Driver.on_package_arrived
  simp [hs, hp, hr, hcmd, hcorr]

/-- Witness for C1's amended theorem, at the concrete state `drv3`. -/
theorem clientIdentified_match_transition_witness :
    drv3.on_package_arrived 5 0 pkgCI =
      ({ drv3 with tracker := drv3.tracker.incr_pkg_num, init_req_opt := none,
                   attempt_opt := none, last_operation_check := 5,
                   state := ConnectionState.connected }, []) :=
  clientIdentified_match_transition drv3 5 0 pkgCI { correlation := 99, started := 0 }
    (by decide) (by decide) (by decide) (by decide) (by decide)

/-! ## C3: the tick in `(Connecting, Reconnecting)` -/

/-- C3: in `(Connecting, Reconnecting)` with an attempt at least
`reconnect_delay` old, `on_tick` increments the attempt's tries and resets
its start, returning `Quit` iff the incremented tries exceed
`max_reconnect` and otherwise invoking `discover` and returning `Continue`;
a younger attempt leaves the driver unchanged with `Continue`.  (The
hypothesis `att.tries + 1 < 2^32` rules out the wrap of the `u32`
counter.) -/
theorem on_tick_reconnecting (d : Driver) (att : Attempt) (now u1 u2 : Nat)
    (hs : d.state = ConnectionState.connecting) (hp : d.phase = Phase.reconnecting)
    (ha : d.attempt_opt = some att) (hw : att.tries + 1 < u32Mod) :
    (d.reconnect_delay ≤ now - att.started →
      d.on_tick now u1 u2 =
        if att.tries + 1 ≤ d.max_reconnect then
          (Driver.discover
              { d with attempt_opt := some { started := now, tries := att.tries + 1 } },
            [], Report.continue_)
        else
          ({ d with attempt_opt := some { started := now, tries := att.tries + 1 } },
            [], Report.quit))
    ∧ (now - att.started < d.reconnect_delay →
        d.on_tick now u1 u2 = (d, [], Report.continue_)) := by
  constructor
  · intro h
    unfold Driver.on_tick
    simp [hs, hp, Driver.conn_has_timeout, ha, h, Driver.start_new_attempt,
      Nat.mod_eq_of_lt hw]
  · intro h
    have hnot : ¬ d.reconnect_delay ≤ now - att.started := by omega
    unfold Driver.on_tick
    simp [hs, hp, Driver.conn_has_timeout, ha, hnot]

/-- `drv2` after its connection reports closure: back to
`(Connecting, Reconnecting)` with the original attempt. -/
def drv2c : Driver := (drv2.on_connection_closed 10 2).1

/-- Witness for C3 at the concrete state `drv2c` (attempt started at 0,
tick at 5000 ≥ the 3000 ms reconnect delay, retry budget 3). -/
theorem on_tick_reconnecting_witness :
    drv2c.on_tick 5000 0 1 =
      if 0 + 1 ≤ drv2c.max_reconnect then
        (Driver.discover
            { drv2c with attempt_opt := some { started := 5000, tries := 0 + 1 } },
          [], Report.continue_)
      else
        ({ drv2c with attempt_opt := some { started := 5000, tries := 0 + 1 } },
          [], Report.quit) :=
  (on_tick_reconnecting drv2c { started := 0, tries := 0 } 5000 0 1
    (by decide) (by decide) (by decide) (by decide)).1 (by decide)

/-! ## C5: heartbeat requests while `Connected` -/

/-- C5: while `Connected` with a candidate connection, a `HeartbeatRequest`
package produces exactly one `HeartbeatResponse` on the candidate, with the
request's correlation and header fields and an empty payload; nothing but
the tracker's package counter changes. -/
theorem heartbeat_request_echoed (d : Driver) (conn : Connection) (now u : Nat) (pkg : Pkg)
    (hs : d.state = ConnectionState.connected)
    (hc : d.candidate = some conn)
    (hcmd : pkg.cmd = Cmd.heartbeatRequest) :
    d.on_package_arrived now u pkg =
      ({ d with tracker := d.tracker.incr_pkg_num },
        [(conn.id, { cmd := Cmd.heartbeatResponse, correlation := pkg.correlation,
                     creds := pkg.creds, payload := Payload.empty })]) := by
  unfold Driver.on_package_arrived
  simp [hs, hc, hcmd, Pkg.copy_headers_only, Cmd.rustEq, Cmd.to_u8]

/-- A heartbeat request from the server, correlation 500. -/
def pkgHB : Pkg :=
  { cmd := .heartbeatRequest, correlation := 500, creds := none, payload := .empty }

/-- Witness for C5 at the connected state `drv4`. -/
theorem heartbeat_request_echoed_witness :
    drv4.on_package_arrived 6 0 pkgHB =
      ({ drv4 with tracker := drv4.tracker.incr_pkg_num },
        [(10, { cmd := Cmd.heartbeatResponse, correlation := 500,
                creds := none, payload := Payload.empty })]) :=
  heartbeat_request_echoed drv4 { id := 10 } 6 0 pkgHB (by decide) (by decide) (by decide)

/-! ## C8: closure notifications for foreign connections -/

/-- C8: `on_connection_closed` with an identity that does not match the
candidate (in particular when no candidate exists) changes no driver state
and produces no outbound package. -/
theorem connection_closed_mismatch_noop (d : Driver) (connId now : Nat)
    (h : d.is_same_connection connId = false) :
    d.on_connection_closed connId now = (d, []) := by
  unfold Driver.on_connection_closed
  simp [h]

/-- Witness for C8 at the connected state `drv4` (candidate identity 10,
notification for identity 11). -/
theorem connection_closed_mismatch_noop_witness :
    drv4.on_connection_closed 11 7 = (drv4, []) :=
  connection_closed_mismatch_noop drv4 11 7 (by decide)

/-! ## Reachable driver states and the structural invariant -/

/-- The inductive invariant of the driver state machine: `Connected` holds a
candidate connection and no pending handshake request; the handshake phases
(`Authentication`, `Identification`) hold a candidate; `Init` holds neither
candidate nor attempt. -/
def DriverInv (d : Driver) : Prop :=
  (d.state = ConnectionState.connected →
    d.candidate.isSome = true ∧ d.init_req_opt = none)
  ∧ (d.state = ConnectionState.connecting →
      (d.phase = Phase.authentication ∨ d.phase = Phase.identification) →
      d.candidate.isSome = true)
  ∧ (d.state = ConnectionState.init →
      d.candidate = none ∧ d.attempt_opt = none)

/-- The invariant ignores the tracker and the registry. -/
theorem inv_frame (d : Driver) (tr : HealthTracker) (reg : Registry)
    (h : DriverInv d) : DriverInv { d with tracker := tr, registry := reg } := by
  unfold DriverInv at h ⊢
  dsimp only
  exact h

/-- `Driver::new` establishes the invariant. -/
theorem inv_new (setts : Settings) (now : Nat) : DriverInv (Driver.new setts now) := by
  unfold DriverInv Driver.new
  refine ⟨?_, ?_, ?_⟩ <;> dsimp only
  · intro hc; exact absurd hc (by decide)
  · intro hc; exact absurd hc (by decide)
  · intro _; exact ⟨rfl, rfl⟩

/-- `Driver::discover` preserves the invariant. -/
theorem inv_discover (d : Driver) (h : DriverInv d) : DriverInv d.discover := by
  unfold Driver.discover
  split
  · rename_i hg
    unfold DriverInv
    refine ⟨?_, ?_, ?_⟩ <;> dsimp only
    · intro hc; rw [hg.1] at hc; exact absurd hc (by decide)
    · intro _ hp; exact absurd hp (by decide)
    · intro hc; rw [hg.1] at hc; exact absurd hc (by decide)
  · exact h

/-- `Driver::start` establishes the invariant. -/
theorem inv_start (d : Driver) (now : Nat) : DriverInv (d.start now) := by
  unfold Driver.start
  apply inv_discover
  unfold DriverInv
  refine ⟨?_, ?_, ?_⟩ <;> dsimp only
  · intro hc; exact absurd hc (by decide)
  · intro _ hp; exact absurd hp (by decide)
  · intro hc; exact absurd hc (by decide)

/-- `Driver::on_establish` preserves the invariant. -/
theorem inv_on_establish (d : Driver) (ep : Endpoint) (connId : Nat)
    (h : DriverInv d) : DriverInv (d.on_establish ep connId) := by
  unfold Driver.on_establish
  split
  · rename_i hg
    unfold DriverInv
    refine ⟨?_, ?_, ?_⟩ <;> dsimp only
    · intro hc; rw [hg.1] at hc; exact absurd hc (by decide)
    · intro _ hp; exact absurd hp (by decide)
    · intro hc; rw [hg.1] at hc; exact absurd hc (by decide)
  · exact h

/-- `Driver::authenticate` preserves the invariant when a candidate is
present. -/
theorem inv_authenticate (d : Driver) (creds : Credentials) (now u : Nat)
    (h : DriverInv d) (hc : d.candidate.isSome = true) :
    DriverInv (d.authenticate creds now u).1 := by
  unfold Driver.authenticate
  split
  · rename_i hg
    dsimp only
    split
    · unfold DriverInv
      refine ⟨?_, ?_, ?_⟩ <;> dsimp only
      · intro hcs; rw [hg.1] at hcs; exact absurd hcs (by decide)
      · intro _ _; exact hc
      · intro hcs; rw [hg.1] at hcs; exact absurd hcs (by decide)
    · unfold DriverInv
      refine ⟨?_, ?_, ?_⟩ <;> dsimp only
      · intro hcs; rw [hg.1] at hcs; exact absurd hcs (by decide)
      · intro _ _; exact hc
      · intro hcs; rw [hg.1] at hcs; exact absurd hcs (by decide)
  · exact h

/-- `Driver::identify_client` preserves the invariant when a candidate is
present. -/
theorem inv_identify_client (d : Driver) (now u : Nat)
    (h : DriverInv d) (hc : d.candidate.isSome = true) :
    DriverInv (d.identify_client now u).1 := by
  unfold Driver.identify_client
  split
  · rename_i hg
    dsimp only
    split
    · unfold DriverInv
      refine ⟨?_, ?_, ?_⟩ <;> dsimp only
      · intro hcs; rw [hg.1] at hcs; exact absurd hcs (by decide)
      · intro _ _; exact hc
      · intro hcs; rw [hg.1] at hcs; exact absurd hcs (by decide)
    · unfold DriverInv
      refine ⟨?_, ?_, ?_⟩ <;> dsimp only
      · intro hcs; rw [hg.1] at hcs; exact absurd hcs (by decide)
      · intro _ _; exact hc
      · intro hcs; rw [hg.1] at hcs; exact absurd hcs (by decide)
  · exact h

/-- The invariant only depends on the state, phase, candidate, handshake
request and attempt fields. -/
theorem inv_of_fields (d e : Driver)
    (hst : e.state = d.state) (hph : e.phase = d.phase)
    (hcand : e.candidate = d.candidate) (hreq : e.init_req_opt = d.init_req_opt)
    (hatt : e.attempt_opt = d.attempt_opt)
    (h : DriverInv d) : DriverInv e := by
  unfold DriverInv at h ⊢
  rw [hst, hph, hcand, hreq, hatt]
  exact h

/-- `Driver::on_established` preserves the invariant. -/
theorem inv_on_established (d : Driver) (id now u : Nat)
    (h : DriverInv d) : DriverInv (d.on_established id now u).1 := by
  unfold Driver.on_established
  split
  · rename_i hg
    dsimp only
    cases hcand : d.candidate with
    | none =>
        simp only [hcand]
        exact h
    | some conn =>
        simp only [hcand]
        split
        · cases hdu : d.default_user with
          | some creds =>
              simp only [hdu]
              refine inv_authenticate _ creds now u ?_ (by simp)
              exact inv_of_fields d _ rfl rfl hcand.symm rfl rfl h
          | none =>
              simp only [hdu]
              refine inv_identify_client _ now u ?_ (by simp)
              exact inv_of_fields d _ rfl rfl hcand.symm rfl rfl h
        · exact h
  · exact h

/-- `Driver::tcp_connection_close` preserves the invariant. -/
theorem inv_tcp_close (d : Driver) (now : Nat) (h : DriverInv d) :
    DriverInv (d.tcp_connection_close now) := by
  unfold Driver.tcp_connection_close
  split
  · unfold DriverInv
    refine ⟨?_, ?_, ?_⟩ <;> dsimp only
    · intro hc; exact absurd hc (by decide)
    · intro _ hp; exact absurd hp (by decide)
    · intro hc; exact absurd hc (by decide)
  · unfold DriverInv
    refine ⟨?_, ?_, ?_⟩ <;> dsimp only
    · intro hc; exact absurd hc (by decide)
    · intro _ hp; exact absurd hp (by decide)
    · intro hc; exact absurd hc (by decide)
  all_goals exact h

/-- `Driver::manage_heartbeat` preserves the invariant. -/
theorem inv_manage_heartbeat (d : Driver) (now u : Nat) (h : DriverInv d) :
    DriverInv (d.manage_heartbeat now u).1 := by
  unfold Driver.manage_heartbeat
  cases hcand : d.candidate with
  | none =>
      simp only [hcand]
      exact h
  | some conn =>
      simp only [hcand]
      split
      · -- Valid verdict: only the tracker changed
        exact inv_of_fields d _ rfl rfl hcand.symm rfl rfl h
      · -- Failure verdict: candidate taken, then tcp_connection_close
        unfold Driver.tcp_connection_close
        split
        · unfold DriverInv
          refine ⟨?_, ?_, ?_⟩ <;> dsimp only
          · intro hc; exact absurd hc (by decide)
          · intro _ hp; exact absurd hp (by decide)
          · intro hc; exact absurd hc (by decide)
        · unfold DriverInv
          refine ⟨?_, ?_, ?_⟩ <;> dsimp only
          · intro hc; exact absurd hc (by decide)
          · intro _ hp; exact absurd hp (by decide)
          · intro hc; exact absurd hc (by decide)
        all_goals
          rename_i hne1 hne2
          unfold DriverInv
          refine ⟨?_, ?_, ?_⟩ <;> dsimp only
          · intro hc; exact absurd hc hne1
          · intro hst _; exact absurd hst hne2
          · intro hc; exact ⟨rfl, (h.2.2 hc).2⟩

/-- `Driver::on_package_arrived` preserves the invariant. -/
theorem inv_on_package_arrived (d : Driver) (now u : Nat) (pkg : Pkg)
    (h : DriverInv d) : DriverInv (d.on_package_arrived now u pkg).1 := by
  unfold Driver.on_package_arrived
  dsimp only
  split
  · -- ClientIdentified in (Connecting, Identification)
    rename_i g1
    obtain ⟨gcmd, gstate, gphase⟩ := g1
    split
    · rename_i req hreq
      split
      · -- matching correlation: transition to Connected
        unfold DriverInv
        refine ⟨?_, ?_, ?_⟩ <;> dsimp only
        · intro _
          exact ⟨h.2.1 gstate (Or.inr gphase), rfl⟩
        · intro hc _; exact absurd hc (by decide)
        · intro hc; exact absurd hc (by decide)
      · -- mismatch: the handshake request was taken and dropped
        unfold DriverInv
        refine ⟨?_, ?_, ?_⟩ <;> dsimp only
        · intro hc; rw [gstate] at hc; exact absurd hc (by decide)
        · intro _ hp; exact h.2.1 gstate hp
        · intro hc; rw [gstate] at hc; exact absurd hc (by decide)
    · -- no recorded request: only the tracker changed
      exact inv_of_fields d _ rfl rfl rfl rfl rfl h
  · split
    · -- Authenticated / NotAuthenticated in (Connecting, Authentication)
      rename_i g1f g2
      obtain ⟨gcmd, gstate, gphase⟩ := g2
      split
      · rename_i req hreq
        split
        · -- matching correlation: proceed to identification
          refine inv_identify_client _ now u ?_ ?_
          · unfold DriverInv
            refine ⟨?_, ?_, ?_⟩ <;> dsimp only
            · intro hc; rw [gstate] at hc; exact absurd hc (by decide)
            · intro _ hp; exact h.2.1 gstate hp
            · intro hc; rw [gstate] at hc; exact absurd hc (by decide)
          · dsimp only
            exact h.2.1 gstate (Or.inl gphase)
        · -- mismatch: the handshake request was taken and dropped
          unfold DriverInv
          refine ⟨?_, ?_, ?_⟩ <;> dsimp only
          · intro hc; rw [gstate] at hc; exact absurd hc (by decide)
          · intro _ hp; exact h.2.1 gstate hp
          · intro hc; rw [gstate] at hc; exact absurd hc (by decide)
      · exact inv_of_fields d _ rfl rfl rfl rfl rfl h
    · -- dispatch while Connected, or dropped
      split
      · split <;>
          first
            | (split <;> exact inv_of_fields d _ rfl rfl rfl rfl rfl h)
            | exact inv_of_fields d _ rfl rfl rfl rfl rfl h
      · exact inv_of_fields d _ rfl rfl rfl rfl rfl h

/-- `Driver::on_connection_closed` preserves the invariant. -/
theorem inv_on_connection_closed (d : Driver) (connId now : Nat)
    (h : DriverInv d) : DriverInv (d.on_connection_closed connId now).1 := by
  unfold Driver.on_connection_closed
  split
  · exact inv_tcp_close d now h
  · exact h

/-- `Driver::on_new_op` preserves the invariant. -/
theorem inv_on_new_op (d : Driver) (now : Nat) (x : Exchange)
    (h : DriverInv d) : DriverInv (d.on_new_op now x).1 := by
  unfold Driver.on_new_op
  exact inv_of_fields d _ rfl rfl rfl rfl rfl h

/-- `Driver::on_send_pkg` preserves the invariant. -/
theorem inv_on_send_pkg (d : Driver) (pkg : Pkg)
    (h : DriverInv d) : DriverInv (d.on_send_pkg pkg).1 := by
  unfold Driver.on_send_pkg
  split
  · split <;> exact h
  · exact h

/-- `Driver::close_connection` establishes the invariant (all three guards
become vacuous in `Closed`). -/
theorem inv_close_connection (d : Driver) : DriverInv d.close_connection := by
  unfold Driver.close_connection DriverInv
  refine ⟨?_, ?_, ?_⟩ <;> dsimp only
  · intro hc; exact absurd hc (by decide)
  · intro hc; exact absurd hc (by decide)
  · intro hc; exact absurd hc (by decide)

/-- `Driver::on_tick` preserves the invariant. -/
theorem inv_on_tick (d : Driver) (now u1 u2 : Nat)
    (h : DriverInv d) : DriverInv (d.on_tick now u1 u2).1 := by
  unfold Driver.on_tick
  split
  · exact h
  · split
    · -- Connecting
      rename_i hni hconn
      split
      · -- Reconnecting
        split
        · -- attempt old enough: start_new_attempt, then discover or quit
          dsimp only
          unfold Driver.start_new_attempt
          cases hatt : d.attempt_opt with
          | none =>
              simp only [hatt]
              exact h
          | some att =>
              simp only [hatt]
              split
              · apply inv_discover
                unfold DriverInv at h ⊢
                dsimp only
                exact ⟨h.1, h.2.1, fun hc => absurd hc (by simp [hconn])⟩
              · unfold DriverInv at h ⊢
                dsimp only
                exact ⟨h.1, h.2.1, fun hc => absurd hc (by simp [hconn])⟩
        · exact h
      · split
        · -- Authentication
          rename_i hnr hauth
          dsimp only
          apply inv_manage_heartbeat
          split
          · exact inv_identify_client d now u1 h (h.2.1 hconn (Or.inl hauth))
          · exact h
        · split
          · -- Identification
            split
            · exact h
            · dsimp only
              exact inv_manage_heartbeat d now u2 h
          · exact h
    · -- Connected
      dsimp only
      apply inv_manage_heartbeat
      split
      · split
        · exact inv_of_fields d _ rfl rfl rfl rfl rfl h
        · exact h
      · exact h

/-- The reachable driver states: everything obtainable from `Driver::new`
through the public operations of the driver (with arbitrary message
contents, times and generated identifiers). -/
inductive Reachable : Driver → Prop where
  | new (setts : Settings) (now : Nat) : Reachable (Driver.new setts now)
  | start (d : Driver) (now : Nat) :
      Reachable d → Reachable (d.start now)
  | on_establish (d : Driver) (ep : Endpoint) (connId : Nat) :
      Reachable d → Reachable (d.on_establish ep connId)
  | on_established (d : Driver) (id now u : Nat) :
      Reachable d → Reachable (d.on_established id now u).1
  | on_package_arrived (d : Driver) (now u : Nat) (pkg : Pkg) :
      Reachable d → Reachable (d.on_package_arrived now u pkg).1
  | on_connection_closed (d : Driver) (connId now : Nat) :
      Reachable d → Reachable (d.on_connection_closed connId now).1
  | on_new_op (d : Driver) (now : Nat) (x : Exchange) :
      Reachable d → Reachable (d.on_new_op now x).1
  | on_tick (d : Driver) (now u1 u2 : Nat) :
      Reachable d → Reachable (d.on_tick now u1 u2).1
  | on_send_pkg (d : Driver) (pkg : Pkg) :
      Reachable d → Reachable (d.on_send_pkg pkg).1
  | close_connection (d : Driver) :
      Reachable d → Reachable d.close_connection

/-- Every reachable driver state satisfies the structural invariant. -/
theorem reachable_inv (d : Driver) (h : Reachable d) : DriverInv d := by
  induction h with
  | new setts now => exact inv_new setts now
  | start d now _ _ => exact inv_start d now
  | on_establish d ep connId _ ih => exact inv_on_establish d ep connId ih
  | on_established d id now u _ ih => exact inv_on_established d id now u ih
  | on_package_arrived d now u pkg _ ih => exact inv_on_package_arrived d now u pkg ih
  | on_connection_closed d connId now _ ih => exact inv_on_connection_closed d connId now ih
  | on_new_op d now x _ ih => exact inv_on_new_op d now x ih
  | on_tick d now u1 u2 _ ih => exact inv_on_tick d now u1 u2 ih
  | on_send_pkg d pkg _ ih => exact inv_on_send_pkg d pkg ih
  | close_connection d _ _ => exact inv_close_connection d

/-! ## C7: `Connected` holds a candidate and no handshake request -/

/-- C7: in every reachable driver state, `Connected` implies that a
candidate connection handle is present and that no handshake request is
recorded; every operation of the driver preserves this (it is an inductive
invariant of `Reachable`). -/
theorem connected_has_candidate_no_handshake (d : Driver) (h : Reachable d)
    (hs : d.state = ConnectionState.connected) :
    d.candidate.isSome = true ∧ d.init_req_opt = none :=
  (reachable_inv d h).1 hs

/-- Witness for C7 at the concrete reachable connected state `drv4`. -/
theorem connected_has_candidate_no_handshake_witness :
    drv4.candidate.isSome = true ∧ drv4.init_req_opt = none :=
  connected_has_candidate_no_handshake drv4
    (Reachable.on_package_arrived drv3 5 0 pkgCI
      (Reachable.on_established drv2 10 0 99
        (Reachable.on_establish drv1 { addr := 1 } 10
          (Reachable.start drv0 0
            (Reachable.new setts0 0)))))
    (by decide)

/-! ## C6: `Init`/`Closed` and the connection handle -/

/-- C6 (counterexample): the reachable state `drv2.close_connection` is
`Closed` yet retains both the candidate connection handle and the attempt —
`close_connection` only sets the state field. -/
theorem closed_retains_candidate_and_attempt :
    Reachable drv2.close_connection
    ∧ drv2.close_connection.state = ConnectionState.closed
    ∧ drv2.close_connection.candidate = some { id := 10 }
    ∧ drv2.close_connection.attempt_opt = some { started := 0, tries := 0 } :=
  ⟨Reachable.close_connection drv2
      (Reachable.on_establish drv1 { addr := 1 } 10
        (Reachable.start drv0 0 (Reachable.new setts0 0))),
    by decide, by decide, by decide⟩

/-- C6 (amended): in every reachable driver state, `Init` implies that no
connection handle and no attempt are held; `close_connection` moves any
state to `Closed` but leaves the candidate and the attempt untouched, so a
`Closed` state may retain both. -/
theorem init_no_handle_and_close_frame (d : Driver) (h : Reachable d) :
    (d.state = ConnectionState.init → d.candidate = none ∧ d.attempt_opt = none)
    ∧ d.close_connection.state = ConnectionState.closed
    ∧ d.close_connection.candidate = d.candidate
    ∧ d.close_connection.attempt_opt = d.attempt_opt :=
  ⟨(reachable_inv d h).2.2, rfl, rfl, rfl⟩

/-- Witness for C6's amended theorem at the freshly constructed driver. -/
theorem init_no_handle_and_close_frame_witness :
    (drv0.state = ConnectionState.init → drv0.candidate = none ∧ drv0.attempt_opt = none)
    ∧ drv0.close_connection.state = ConnectionState.closed
    ∧ drv0.close_connection.candidate = drv0.candidate
    ∧ drv0.close_connection.attempt_opt = drv0.attempt_opt :=
  init_no_handle_and_close_frame drv0 (Reachable.new setts0 0)

/-- Witness for C4: the reference step evaluated at a concrete tracker in
`Delay` with quiet traffic past the heartbeat delay. -/
theorem manage_heartbeat_matches_spec_witness :
    HealthTracker.manage_heartbeat 800 42 { id := 10 }
        { pkg_num := 3, state := .delay 3 0, heartbeat_delay := 750, heartbeat_timeout := 1500 }
      = manage_heartbeat_spec 800 42 { id := 10 }
        { pkg_num := 3, state := .delay 3 0, heartbeat_delay := 750, heartbeat_timeout := 1500 } :=
  manage_heartbeat_matches_spec
    { pkg_num := 3, state := .delay 3 0, heartbeat_delay := 750, heartbeat_timeout := 1500 }
    800 42 { id := 10 }

/-- Witness for C10 at the concrete settings `setts0`. -/
theorem reconnect_delay_hard_coded_witness :
    (Driver.new setts0 0).reconnect_delay = 3000 :=
  reconnect_delay_hard_coded setts0 0
